import Mathlib

/-!
# Verification development for `pa2_code_task1.c`

A shallow embedding of the UDP echo benchmark: the latency worker
(`client_thread_func`), the aggregation and report of `run_client`, and one
iteration of the echo loop of `run_server`.

Conventions of the embedding.

* C signed integers are `Int` values reduced to the two's-complement range after
  each operation: `int` is 32 bits wide, `long` and `long long` are 64 bits wide
  (LP64 Linux, the platform of `epoll`).
* The results of the system calls of one loop iteration (`gettimeofday`, `send`,
  `epoll_wait`, `recv`) are inputs of the model, one record per iteration.
* `request_rate` is a C `float`; floating point is outside the embedding, so the
  field and the sum `total_request_rate` are left out.
-/

namespace PA2

/-! ## Machine arithmetic -/

/-- Reduction of an integer to the 32-bit two's-complement range (C `int`). -/
def wrap_int (x : Int) : Int := (x + 2147483648) % 4294967296 - 2147483648

/-- Reduction of an integer to the 64-bit two's-complement range (C `long`, `long long`). -/
def wrap_ll (x : Int) : Int :=
  (x + 9223372036854775808) % 18446744073709551616 - 9223372036854775808

/-- Representable as a C `int`. -/
def in_int (x : Int) : Prop := -2147483648 ≤ x ∧ x < 2147483648

/-- Representable as a C `long long` (or `long`). -/
def in_ll (x : Int) : Prop := -9223372036854775808 ≤ x ∧ x < 9223372036854775808

instance (x : Int) : Decidable (in_int x) :=
  inferInstanceAs (Decidable (-2147483648 ≤ x ∧ x < 2147483648))

instance (x : Int) : Decidable (in_ll x) :=
  inferInstanceAs (Decidable (-9223372036854775808 ≤ x ∧ x < 9223372036854775808))

/-- C `int` addition. -/
def add_int (a b : Int) : Int := wrap_int (a + b)

/-- C `int` subtraction. -/
def sub_int (a b : Int) : Int := wrap_int (a - b)

/-- C `int` multiplication. -/
def mul_int (a b : Int) : Int := wrap_int (a * b)

/-- C `long` / `long long` addition. -/
def add_ll (a b : Int) : Int := wrap_ll (a + b)

/-- C `long` / `long long` subtraction. -/
def sub_ll (a b : Int) : Int := wrap_ll (a - b)

/-- C `long long` multiplication. -/
def mul_ll (a b : Int) : Int := wrap_ll (a * b)

/-- C `long long` division: truncates toward zero; dividing by zero, or dividing
the least value by `-1`, has no defined result (`none`). -/
def div_ll (a b : Int) : Option Int :=
  if b = 0 then none
  else if a = -9223372036854775808 ∧ b = -1 then none
  else some (Int.tdiv a b)

/-! ## Data model -/

/-- Size of the message buffers, `#define MESSAGE_SIZE 16`. -/
def MESSAGE_SIZE : Nat := 16

/-- The `struct timeval` filled in by `gettimeofday`. -/
structure timeval where
  tv_sec : Int
  tv_usec : Int
deriving DecidableEq, Repr

/-- The per-thread record `client_thread_data_t` (without the `float` field
`request_rate`). -/
structure client_thread_data_t where
  epoll_fd : Int
  socket_fd : Int
  total_rtt : Int
  total_messages : Int
deriving DecidableEq, Repr

/-- System calls issued by the worker, recorded in call order. -/
inductive Syscall where
  | epoll_ctl
  | gettimeofday
  | send
  | epoll_wait
  | recv
  | close
deriving DecidableEq, Repr

/-- What the environment returns during one iteration of the worker loop:
the two clock readings and the return values of `send`, `epoll_wait` and `recv`.
`recv_ret` and `tv_end` are consulted only when the iteration reaches the calls. -/
structure IterOutcome where
  tv_start : timeval
  send_ret : Int
  epoll_ret : Int
  recv_ret : Int
  tv_end : timeval
deriving DecidableEq, Repr

/-- The worker's view while the loop runs: the shared record `data`, the local
counters `tx_cnt` and `rx_cnt`, and the log of system calls issued so far. -/
structure WorkerState where
  data : client_thread_data_t
  tx_cnt : Int
  rx_cnt : Int
  calls : List Syscall
deriving DecidableEq, Repr

/-! ## The latency worker -/

/-- The expression
`(end.tv_usec - start.tv_usec) + ((end.tv_sec - start.tv_sec) * 1000000ll)`. -/
def rtt_expr (start tv_end : timeval) : Int :=
  add_ll (sub_ll tv_end.tv_usec start.tv_usec)
    (mul_ll (sub_ll tv_end.tv_sec start.tv_sec) 1000000)

/-- One pass through the body of the `for` loop of `client_thread_func`. -/
def iter_body (o : IterOutcome) (st : WorkerState) : WorkerState :=
  -- gettimeofday(&start, NULL);
  -- if (send(...) > -1) tx_cnt += 1;
  let tx := if o.send_ret > -1 then add_int st.tx_cnt 1 else st.tx_cnt
  -- if (epoll_wait(..., 1000) <= 0) continue;
  if o.epoll_ret ≤ 0 then
    { st with
      tx_cnt := tx
      calls := st.calls ++ [Syscall.gettimeofday, Syscall.send, Syscall.epoll_wait] }
  else
    -- if (recv(...) > -1) rx_cnt += 1;
    let rx := if o.recv_ret > -1 then add_int st.rx_cnt 1 else st.rx_cnt
    -- gettimeofday(&end, NULL); rtt = ...;
    let rtt := rtt_expr o.tv_start o.tv_end
    -- data->total_rtt += rtt; data->total_messages += 1;
    { data := { st.data with
                total_rtt := add_ll st.data.total_rtt rtt
                total_messages := add_ll st.data.total_messages 1 }
      tx_cnt := tx
      rx_cnt := rx
      calls := st.calls ++ [Syscall.gettimeofday, Syscall.send, Syscall.epoll_wait,
                            Syscall.recv, Syscall.gettimeofday] }

/-- The loop `for (int i = 0; i < num_requests; i++) body`, entered at index `i`
with `remaining` passes still to run; pass `i` sees the outcome `env i`. -/
def worker_loop (env : Nat → IterOutcome) : Nat → Nat → WorkerState → WorkerState
  | 0, _, st => st
  | remaining + 1, i, st => worker_loop env remaining (i + 1) (iter_body (env i) st)

/-- The worker's state on entry to the loop: `int tx_cnt = 0, rx_cnt = 0`, the
record as passed in, and the socket registered with `epoll_ctl`. -/
def worker_init (data : client_thread_data_t) : WorkerState :=
  { data := data, tx_cnt := 0, rx_cnt := 0, calls := [Syscall.epoll_ctl] }

/-- What `client_thread_func` leaves behind: the updated record, the local
counters, and the argument of the loss diagnostic when one is printed. -/
structure WorkerResult where
  data : client_thread_data_t
  tx_cnt : Int
  rx_cnt : Int
  lost_pkt_cnt : Int
  diagnostic : Option Int
  calls : List Syscall
deriving DecidableEq, Repr

/-- The function `client_thread_func`: registers the socket, runs the loop
`num_requests` times (not at all when `num_requests ≤ 0`), computes the loss and
prints it when positive, then closes both descriptors. -/
def client_thread_func (num_requests : Int) (env : Nat → IterOutcome)
    (data : client_thread_data_t) : WorkerResult :=
  let st := worker_loop env num_requests.toNat 0 (worker_init data)
  let lost_pkt_cnt := sub_int st.tx_cnt st.rx_cnt
  { data := st.data
    tx_cnt := st.tx_cnt
    rx_cnt := st.rx_cnt
    lost_pkt_cnt := lost_pkt_cnt
    diagnostic := if lost_pkt_cnt > 0 then some lost_pkt_cnt else none
    calls := st.calls ++ [Syscall.close, Syscall.close] }

/-! ## The orchestrator -/

/-- Return values of the set-up calls of `run_client` for one thread:
`socket`, `epoll_create1`, `connect` and `pthread_create`. -/
structure SetupOutcome where
  socket_ret : Int
  epoll_ret : Int
  connect_ret : Int
  pthread_ret : Int
deriving DecidableEq, Repr

/-- None of the set-up checks of `run_client` calls `exit(-1)` for this thread. -/
def setup_ok (s : SetupOutcome) : Bool :=
  !(decide (s.socket_ret < 0)) && !(decide (s.epoll_ret < 0)) &&
    !(decide (s.connect_ret < 0)) && !(decide (s.pthread_ret ≠ 0))

/-- The accumulators `total_rtt` and `total_messages` of `run_client`. -/
structure Totals where
  total_rtt : Int
  total_messages : Int
deriving DecidableEq, Repr

/-- One pass of the join loop:
`total_rtt += thread_data[i].total_rtt; total_messages += thread_data[i].total_messages;`. -/
def aggregate_step (acc : Totals) (d : client_thread_data_t) : Totals :=
  { total_rtt := add_ll acc.total_rtt d.total_rtt
    total_messages := add_ll acc.total_messages d.total_messages }

/-- The join loop of `run_client` over `thread_data[0 .. num_client_threads-1]`,
both accumulators starting at zero. -/
def aggregate (thread_data : List client_thread_data_t) : Totals :=
  thread_data.foldl aggregate_step { total_rtt := 0, total_messages := 0 }

/-- The values printed by the report lines of `run_client`. `average_rtt` is
`none` when the division `total_rtt / total_messages` has no defined result. -/
structure ClientReport where
  total_messages : Int
  total_requests_expected : Int
  average_rtt : Option Int
deriving DecidableEq, Repr

/-- The report of `run_client` once every thread has been joined:
`total_messages`, `num_client_threads * num_requests`, `total_rtt / total_messages`. -/
def report (num_client_threads num_requests : Int)
    (thread_data : List client_thread_data_t) : ClientReport :=
  let t := aggregate thread_data
  { total_messages := t.total_messages
    total_requests_expected := mul_int num_client_threads num_requests
    average_rtt := div_ll t.total_rtt t.total_messages }

/-- What a run of the client prints: the loss diagnostic of each thread (if any)
and the final report. -/
structure ClientOutput where
  diagnostics : List (Option Int)
  final : ClientReport
deriving DecidableEq, Repr

/-- The function `run_client`. Every thread gets zeroed statistics and its own
descriptors; a failed set-up call ends the process (`none`); the threads share
no data, thread `i` sees the outcomes `env i`; after the joins the totals are
reported. -/
def run_client (num_client_threads num_requests : Int) (setup : Nat → SetupOutcome)
    (env : Nat → Nat → IterOutcome) : Option ClientOutput :=
  let ids := List.range num_client_threads.toNat
  if ids.all (fun i => setup_ok (setup i)) then
    let results := ids.map (fun i =>
      client_thread_func num_requests (env i)
        { epoll_fd := (setup i).epoll_ret
          socket_fd := (setup i).socket_ret
          total_rtt := 0
          total_messages := 0 })
    some { diagnostics := results.map (fun r => r.diagnostic)
           final := report num_client_threads num_requests (results.map (fun r => r.data)) }
  else none

/-! ## The echo responder -/

/-- One octet of a datagram. -/
abbrev Byte := Fin 256

/-- An IPv4 socket address, `struct sockaddr_in`. -/
structure sockaddr_in where
  sin_addr : Nat
  sin_port : Nat
deriving DecidableEq, Repr

/-- A UDP datagram queued on the server socket. -/
structure Datagram where
  payload : List Byte
  src : sockaddr_in
deriving DecidableEq, Repr

/-- What `recvfrom` hands back: its return value, the bytes stored in the
buffer, and the sender address when one was stored. -/
structure RecvResult where
  bytes : Int
  buf : List Byte
  client_addr : Option sockaddr_in
deriving DecidableEq, Repr

/-- The call `recvfrom(fd, buf, len, 0, &client_addr, &client_addr_len)` on a
datagram socket: a queued datagram is removed whole, its first `len` bytes are
stored and counted, the excess is discarded; without a datagram the call
fails with `-1`. -/
def recvfrom (inbound : Option Datagram) (len : Nat) : RecvResult :=
  match inbound with
  | none => { bytes := -1, buf := [], client_addr := none }
  | some d =>
    { bytes := (min d.payload.length len : Nat)
      buf := d.payload.take len
      client_addr := some d.src }

/-- The externally visible act of one pass of the server loop. -/
inductive ServerAction where
  | sendto (fd : Int) (data : List Byte) (dest : Option sockaddr_in)
  | close (fd : Int)
deriving DecidableEq, Repr

/-- One pass of the `while (1)` loop of `run_server` after `epoll_wait` returns:
`bytes = recvfrom(fd, buf, MESSAGE_SIZE, ...)`, then `sendto(fd, buf, bytes, ...)`
when `bytes > 0` and `close(fd)` otherwise. -/
def run_server_iter (fd : Int) (inbound : Option Datagram) : ServerAction :=
  let r := recvfrom inbound MESSAGE_SIZE
  if r.bytes > 0 then
    ServerAction.sendto fd (r.buf.take r.bytes.toNat) r.client_addr
  else
    ServerAction.close fd

/-! ## Specification-side quantities -/

/-- A clock reading in microseconds, `tv_sec * 1000000 + tv_usec`. -/
def micros (t : timeval) : Int := t.tv_sec * 1000000 + t.tv_usec

/-- Readiness fired in this iteration: `epoll_wait` returned a positive count. -/
def ready (o : IterOutcome) : Bool := decide (0 < o.epoll_ret)

/-- The send of this iteration succeeded: `send` returned a value above `-1`. -/
def sent (o : IterOutcome) : Bool := decide (-1 < o.send_ret)

/-- A reply was received in this iteration: readiness fired and `recv` returned
a value above `-1`. -/
def received (o : IterOutcome) : Bool := ready o && decide (-1 < o.recv_ret)

/-- Elapsed microseconds of the iteration when readiness fired, zero otherwise. -/
def rtt_sample (o : IterOutcome) : Int :=
  if ready o then micros o.tv_end - micros o.tv_start else 0

/-- Sum of the elapsed microseconds over the first `k` iterations, counting
exactly those in which readiness fired. -/
def rtt_sum (env : Nat → IterOutcome) (k : Nat) : Int :=
  ((List.range k).map (fun i => rtt_sample (env i))).sum

/-- Number of the first `k` iterations satisfying `p`. -/
def count_iters (p : IterOutcome → Bool) (env : Nat → IterOutcome) (k : Nat) : Nat :=
  (List.range k).countP (fun i => p (env i))

/-! ## Concrete runs -/

/-- A record as `run_client` hands it to a thread: descriptors 3 and 4, zeroed
statistics. -/
def data0 : client_thread_data_t :=
  { epoll_fd := 3, socket_fd := 4, total_rtt := 0, total_messages := 0 }

/-- Set-up calls that all succeed. -/
def setup0 : Nat → SetupOutcome := fun _ =>
  { socket_ret := 4, epoll_ret := 3, connect_ret := 0, pthread_ret := 0 }

/-- Every iteration succeeds: 16 bytes sent, one ready descriptor, 16 bytes
received, 250 microseconds elapsed across a change of second. -/
def env_ok : Nat → IterOutcome := fun i =>
  { tv_start := { tv_sec := 1700000000 + i, tv_usec := 999900 }
    send_ret := 16
    epoll_ret := 1
    recv_ret := 16
    tv_end := { tv_sec := 1700000001 + i, tv_usec := 150 } }

/-- No responder: every send succeeds and every readiness wait times out. -/
def env_timeout : Nat → IterOutcome := fun i =>
  { tv_start := { tv_sec := 1700000000 + i, tv_usec := 0 }
    send_ret := 16
    epoll_ret := 0
    recv_ret := -1
    tv_end := { tv_sec := 1700000001 + i, tv_usec := 0 } }

/-- Readiness fires in every iteration but `recv` fails with `-1`. -/
def env_recv_fails : Nat → IterOutcome := fun i =>
  { tv_start := { tv_sec := 1700000000 + i, tv_usec := 10 }
    send_ret := 16
    epoll_ret := 1
    recv_ret := -1
    tv_end := { tv_sec := 1700000000 + i, tv_usec := 40 } }

/-- One successful iteration whose clock readings are `(0, 0)` at the start and
`(9223372036854, 775808)` at the end, that is `2^63` microseconds apart. -/
def env_far : Nat → IterOutcome := fun _ =>
  { tv_start := { tv_sec := 0, tv_usec := 0 }
    send_ret := 16
    epoll_ret := 1
    recv_ret := 16
    tv_end := { tv_sec := 9223372036854, tv_usec := 775808 } }

/-- The address `127.0.0.1:40000` of a client. -/
def peer0 : sockaddr_in := { sin_addr := 2130706433, sin_port := 40000 }

/-! ## Lemmas on machine arithmetic -/

theorem wrap_int_of_in_int (x : Int) (h : in_int x) : wrap_int x = x := by
  unfold in_int at h
  unfold wrap_int
  omega

theorem wrap_ll_of_in_ll (x : Int) (h : in_ll x) : wrap_ll x = x := by
  unfold in_ll at h
  unfold wrap_ll
  omega

theorem wrap_ll_add_left (a b : Int) : wrap_ll (wrap_ll a + b) = wrap_ll (a + b) := by
  unfold wrap_ll
  omega

/-! ## Lemmas on the worker loop -/

theorem worker_loop_succ (env : Nat → IterOutcome) (k : Nat) :
    ∀ (i : Nat) (st : WorkerState),
      worker_loop env (k + 1) i st = iter_body (env (i + k)) (worker_loop env k i st) := by
  induction k with
  | zero => intro i st; simp [worker_loop]
  | succ n ih =>
    intro i st
    rw [worker_loop, ih (i + 1) (iter_body (env i) st)]
    have : i + 1 + n = i + (n + 1) := by omega
    rw [this]
    rfl

theorem count_iters_succ (p : IterOutcome → Bool) (env : Nat → IterOutcome) (k : Nat) :
    count_iters p env (k + 1) = count_iters p env k + (if p (env k) then 1 else 0) := by
  unfold count_iters
  rw [List.range_succ, List.countP_append]
  simp [List.countP_cons]

theorem count_iters_le (p : IterOutcome → Bool) (env : Nat → IterOutcome) (k : Nat) :
    count_iters p env k ≤ k := by
  unfold count_iters
  calc (List.range k).countP (fun i => p (env i)) ≤ (List.range k).length :=
        List.countP_le_length _
    _ = k := List.length_range k

theorem count_iters_all (p : IterOutcome → Bool) (env : Nat → IterOutcome) (k : Nat)
    (h : ∀ i, i < k → p (env i) = true) : count_iters p env k = k := by
  induction k with
  | zero => simp [count_iters]
  | succ n ih =>
    rw [count_iters_succ, ih (fun i hi => h i (by omega)), h n (by omega)]
    simp

theorem count_iters_none (p : IterOutcome → Bool) (env : Nat → IterOutcome) (k : Nat)
    (h : ∀ i, i < k → p (env i) = false) : count_iters p env k = 0 := by
  induction k with
  | zero => simp [count_iters]
  | succ n ih =>
    rw [count_iters_succ, ih (fun i hi => h i (by omega)), h n (by omega)]
    simp

theorem count_received_le_ready (env : Nat → IterOutcome) (k : Nat) :
    count_iters received env k ≤ count_iters ready env k := by
  induction k with
  | zero => simp [count_iters]
  | succ n ih =>
    rw [count_iters_succ, count_iters_succ]
    by_cases hr : ready (env n) = true
    · have : (if received (env n) = true then 1 else 0) ≤ 1 := by split <;> omega
      simp only [hr, if_true]
      omega
    · have : received (env n) = false := by simp [received, hr]
      simp [this, hr]
      exact ih

theorem rtt_sum_succ (env : Nat → IterOutcome) (k : Nat) :
    rtt_sum env (k + 1) = rtt_sum env k + rtt_sample (env k) := by
  unfold rtt_sum
  rw [List.range_succ]
  simp

theorem iter_body_tx (o : IterOutcome) (st : WorkerState) :
    (iter_body o st).tx_cnt = if o.send_ret > -1 then add_int st.tx_cnt 1 else st.tx_cnt := by
  unfold iter_body
  by_cases h : o.epoll_ret ≤ 0 <;> simp [h]

theorem iter_body_rx (o : IterOutcome) (st : WorkerState) :
    (iter_body o st).rx_cnt =
      if o.epoll_ret ≤ 0 then st.rx_cnt
      else if o.recv_ret > -1 then add_int st.rx_cnt 1 else st.rx_cnt := by
  unfold iter_body
  by_cases h : o.epoll_ret ≤ 0 <;> simp [h]

theorem iter_body_msgs (o : IterOutcome) (st : WorkerState) :
    (iter_body o st).data.total_messages =
      if o.epoll_ret ≤ 0 then st.data.total_messages
      else add_ll st.data.total_messages 1 := by
  unfold iter_body
  by_cases h : o.epoll_ret ≤ 0 <;> simp [h]

theorem iter_body_rtt (o : IterOutcome) (st : WorkerState) :
    (iter_body o st).data.total_rtt =
      if o.epoll_ret ≤ 0 then st.data.total_rtt
      else add_ll st.data.total_rtt (rtt_expr o.tv_start o.tv_end) := by
  unfold iter_body
  by_cases h : o.epoll_ret ≤ 0 <;> simp [h]

theorem loop_tx (env : Nat → IterOutcome) (st0 : WorkerState) (k : Nat)
    (hk : (k : Int) < 2147483648) (h0 : st0.tx_cnt = 0) :
    (worker_loop env k 0 st0).tx_cnt = (count_iters sent env k : Int) := by
  induction k with
  | zero => simp [worker_loop, count_iters, h0]
  | succ n ih =>
    have ihn := ih (by omega)
    have hle := count_iters_le sent env n
    rw [worker_loop_succ, iter_body_tx, ihn, count_iters_succ, Nat.zero_add]
    by_cases hs : (env n).send_ret > -1
    · have : sent (env n) = true := by simp [sent]; omega
      simp only [hs, this, if_true, add_int, wrap_int]
      push_cast
      omega
    · have : sent (env n) = false := by simp [sent]; omega
      simp [hs, this]

theorem loop_rx (env : Nat → IterOutcome) (st0 : WorkerState) (k : Nat)
    (hk : (k : Int) < 2147483648) (h0 : st0.rx_cnt = 0) :
    (worker_loop env k 0 st0).rx_cnt = (count_iters received env k : Int) := by
  induction k with
  | zero => simp [worker_loop, count_iters, h0]
  | succ n ih =>
    have ihn := ih (by omega)
    have hle := count_iters_le received env n
    rw [worker_loop_succ, iter_body_rx, ihn, count_iters_succ, Nat.zero_add]
    by_cases he : (env n).epoll_ret ≤ 0
    · have : received (env n) = false := by simp [received, ready]; intro; omega
      simp [he, this]
    · by_cases hr : (env n).recv_ret > -1
      · have : received (env n) = true := by simp [received, ready]; omega
        simp only [he, hr, this, if_true, if_false, add_int, wrap_int]
        push_cast
        omega
      · have : received (env n) = false := by simp [received, ready]; intro; omega
        simp [he, hr, this]

theorem loop_msgs (env : Nat → IterOutcome) (st0 : WorkerState) (k : Nat)
    (hk : (k : Int) < 2147483648) (h0 : st0.data.total_messages = 0) :
    (worker_loop env k 0 st0).data.total_messages = (count_iters ready env k : Int) := by
  induction k with
  | zero => simp [worker_loop, count_iters, h0]
  | succ n ih =>
    have ihn := ih (by omega)
    have hle := count_iters_le ready env n
    rw [worker_loop_succ, iter_body_msgs, ihn, count_iters_succ, Nat.zero_add]
    by_cases he : (env n).epoll_ret ≤ 0
    · have : ready (env n) = false := by simp [ready]; omega
      simp [he, this]
    · have : ready (env n) = true := by simp [ready]; omega
      simp only [he, this, if_true, if_false, add_ll, wrap_ll]
      push_cast
      omega

theorem rtt_expr_wrap (s e : timeval) :
    rtt_expr s e = wrap_ll (micros e - micros s) := by
  unfold rtt_expr add_ll sub_ll mul_ll wrap_ll micros
  omega

theorem loop_rtt_wrap (env : Nat → IterOutcome) (st0 : WorkerState) (k : Nat)
    (h0 : in_ll st0.data.total_rtt) :
    (worker_loop env k 0 st0).data.total_rtt =
      wrap_ll (st0.data.total_rtt + rtt_sum env k) := by
  induction k with
  | zero =>
    simp only [worker_loop, rtt_sum, List.range_zero, List.map_nil, List.sum_nil, add_zero]
    exact (wrap_ll_of_in_ll _ h0).symm
  | succ n ih =>
    rw [worker_loop_succ, iter_body_rtt, ih, rtt_sum_succ, Nat.zero_add]
    by_cases he : (env n).epoll_ret ≤ 0
    · have : ready (env n) = false := by simp [ready]; omega
      simp [he, this, rtt_sample]
    · have hr : ready (env n) = true := by simp [ready]; omega
      simp only [rtt_sample, hr, if_true, he, if_false]
      rw [rtt_expr_wrap]
      unfold add_ll wrap_ll
      omega

theorem worker_loop_split (env : Nat → IterOutcome) (k : Nat) :
    ∀ (m i : Nat) (st : WorkerState),
      worker_loop env (k + m) i st = worker_loop env m (i + k) (worker_loop env k i st) := by
  induction k with
  | zero => intro m i st; simp [worker_loop]
  | succ n ih =>
    intro m i st
    have h1 : n + 1 + m = (n + m) + 1 := by omega
    have h2 : i + (n + 1) = i + 1 + n := by omega
    rw [h1, h2, worker_loop, worker_loop, ih m (i + 1) (iter_body (env i) st)]

theorem rtt_sum_nonneg (env : Nat → IterOutcome) (k : Nat)
    (h : ∀ i, i < k → ready (env i) = true →
      micros (env i).tv_start ≤ micros (env i).tv_end) : 0 ≤ rtt_sum env k := by
  induction k with
  | zero => simp [rtt_sum]
  | succ n ih =>
    have ihn := ih (fun i hi => h i (by omega))
    rw [rtt_sum_succ]
    have : 0 ≤ rtt_sample (env n) := by
      unfold rtt_sample
      by_cases hr : ready (env n) = true
      · have := h n (by omega) hr
        simp only [hr, if_true]
        omega
      · simp [hr]
    omega

/-! ## The worker: counters and loss -/

/-- C2: for a worker started with `total_messages = 0` and `num_requests ≥ 0`
(a C `int`), whatever `send`, `epoll_wait` and `recv` return, the state after the
first `k` passes of the loop (from which the remaining passes continue) has
`total_messages ≤ k`; hence `total_messages ≤ num_requests` when
`client_thread_func` ends. -/
theorem total_messages_le_iterations (num_requests : Int) (env : Nat → IterOutcome)
    (data : client_thread_data_t) (hint : in_int num_requests) (hnn : 0 ≤ num_requests)
    (h0 : data.total_messages = 0) :
    (∀ k : Nat, k ≤ num_requests.toNat →
      worker_loop env num_requests.toNat 0 (worker_init data) =
        worker_loop env (num_requests.toNat - k) k
          (worker_loop env k 0 (worker_init data)) ∧
      (worker_loop env k 0 (worker_init data)).data.total_messages ≤ (k : Int)) ∧
    (client_thread_func num_requests env data).data.total_messages ≤ num_requests := by
  have hn : (num_requests.toNat : Int) < 2147483648 := by
    unfold in_int at hint
    omega
  have key : ∀ k : Nat, k ≤ num_requests.toNat →
      (worker_loop env k 0 (worker_init data)).data.total_messages ≤ (k : Int) := by
    intro k hk
    rw [loop_msgs env (worker_init data) k (by omega) h0]
    exact_mod_cast count_iters_le ready env k
  refine ⟨fun k hk => ⟨?_, key k hk⟩, ?_⟩
  · have h := worker_loop_split env k (num_requests.toNat - k) 0 (worker_init data)
    rw [Nat.add_sub_cancel' hk, Nat.zero_add] at h
    exact h
  · have := key num_requests.toNat (le_refl _)
    have hcast : (num_requests.toNat : Int) = num_requests := Int.toNat_of_nonneg hnn
    simp only [client_thread_func]
    omega

theorem total_messages_le_iterations_witness :
    in_int 5 ∧ (0 : Int) ≤ 5 ∧ data0.total_messages = 0 ∧
    (client_thread_func 5 env_recv_fails data0).data.total_messages ≤ 5 :=
  ⟨by decide, by decide, rfl,
    (total_messages_le_iterations 5 env_recv_fails data0 (by decide) (by decide) rfl).2⟩

/-- C3: when in every pass `send` returns more than `-1`, `epoll_wait` returns a
positive count and `recv` returns more than `-1`, then at the end of
`client_thread_func` (worker started with `total_messages = 0`, `num_requests ≥ 0`
a C `int`) `total_messages`, `tx_cnt` and `rx_cnt` all equal `num_requests`,
`lost_pkt_cnt` is `0` and no loss diagnostic is printed. -/
theorem all_success_no_loss (num_requests : Int) (env : Nat → IterOutcome)
    (data : client_thread_data_t) (hint : in_int num_requests) (hnn : 0 ≤ num_requests)
    (h0 : data.total_messages = 0)
    (hall : ∀ i : Nat, i < num_requests.toNat →
      (env i).send_ret > -1 ∧ (env i).epoll_ret > 0 ∧ (env i).recv_ret > -1) :
    (client_thread_func num_requests env data).data.total_messages = num_requests ∧
    (client_thread_func num_requests env data).tx_cnt = num_requests ∧
    (client_thread_func num_requests env data).rx_cnt = num_requests ∧
    (client_thread_func num_requests env data).lost_pkt_cnt = 0 ∧
    (client_thread_func num_requests env data).diagnostic = none := by
  have hn : (num_requests.toNat : Int) < 2147483648 := by
    unfold in_int at hint
    omega
  have hcast : (num_requests.toNat : Int) = num_requests := Int.toNat_of_nonneg hnn
  have hm := loop_msgs env (worker_init data) num_requests.toNat hn h0
  have ht := loop_tx env (worker_init data) num_requests.toNat hn rfl
  have hr := loop_rx env (worker_init data) num_requests.toNat hn rfl
  rw [count_iters_all ready env _ (fun i hi => by
    have := hall i hi
    simp [ready]; omega)] at hm
  rw [count_iters_all sent env _ (fun i hi => by
    have := hall i hi
    simp [sent]; omega)] at ht
  rw [count_iters_all received env _ (fun i hi => by
    have := hall i hi
    simp [received, ready]; omega)] at hr
  rw [hcast] at hm ht hr
  have hl : sub_int num_requests num_requests = 0 := by
    unfold sub_int wrap_int
    omega
  simp only [client_thread_func, hm, ht, hr, hl]
  simp

theorem all_success_no_loss_witness :
    (client_thread_func 5 env_ok data0).data.total_messages = 5 ∧
    (client_thread_func 5 env_ok data0).tx_cnt = 5 ∧
    (client_thread_func 5 env_ok data0).rx_cnt = 5 ∧
    (client_thread_func 5 env_ok data0).lost_pkt_cnt = 0 ∧
    (client_thread_func 5 env_ok data0).diagnostic = none :=
  all_success_no_loss 5 env_ok data0 (by decide) (by decide) rfl
    (fun _ _ => ⟨show (16 : Int) > -1 by decide, show (1 : Int) > 0 by decide,
      show (16 : Int) > -1 by decide⟩)

/-- C4, as stated, fails: one worker, five requests, every send succeeds and
every readiness wait times out. The worker ends with `total_messages = 0`, not
`5`; `rx_cnt = 0`, `tx_cnt = 5` and the loss diagnostic `5` are as claimed, and
the report of `run_client` shows `0` messages of `5` expected. -/
theorem timeout_run_total_messages_not_requests :
    (client_thread_func 5 env_timeout data0).data.total_messages = 0 ∧
    (client_thread_func 5 env_timeout data0).data.total_messages ≠ 5 ∧
    (client_thread_func 5 env_timeout data0).rx_cnt = 0 ∧
    (client_thread_func 5 env_timeout data0).tx_cnt = 5 ∧
    (client_thread_func 5 env_timeout data0).diagnostic = some 5 ∧
    (run_client 1 5 setup0 (fun _ => env_timeout)).map
      (fun out => (out.final.total_messages, out.final.total_requests_expected)) =
      some (0, 5) := by
  decide

/-- C4 (amended): when every readiness wait of the run times out (`epoll_wait`
returns `0` in every pass), a worker started with `total_messages = 0` ends with
`total_messages = 0` and an unchanged `total_rtt`; `rx_cnt = 0`, `tx_cnt` is the
number of successful sends, `lost_pkt_cnt = tx_cnt`, and the loss diagnostic is
printed with that value exactly when it is positive. -/
theorem timeout_run_counts_nothing (num_requests : Int) (env : Nat → IterOutcome)
    (data : client_thread_data_t) (hint : in_int num_requests)
    (h0 : data.total_messages = 0)
    (hall : ∀ i : Nat, i < num_requests.toNat → (env i).epoll_ret = 0) :
    (client_thread_func num_requests env data).data.total_messages = 0 ∧
    (client_thread_func num_requests env data).data.total_rtt = data.total_rtt ∧
    (client_thread_func num_requests env data).rx_cnt = 0 ∧
    (client_thread_func num_requests env data).tx_cnt =
      (count_iters sent env num_requests.toNat : Int) ∧
    (client_thread_func num_requests env data).lost_pkt_cnt =
      (client_thread_func num_requests env data).tx_cnt ∧
    (client_thread_func num_requests env data).diagnostic =
      (if 0 < count_iters sent env num_requests.toNat
        then some (count_iters sent env num_requests.toNat : Int) else none) := by
  have hn : (num_requests.toNat : Int) < 2147483648 := by
    unfold in_int at hint
    omega
  have hm := loop_msgs env (worker_init data) num_requests.toNat hn h0
  have ht := loop_tx env (worker_init data) num_requests.toNat hn rfl
  have hr := loop_rx env (worker_init data) num_requests.toNat hn rfl
  have hrtt : (worker_loop env num_requests.toNat 0 (worker_init data)).data.total_rtt =
      data.total_rtt := by
    have : ∀ k : Nat, k ≤ num_requests.toNat →
        (worker_loop env k 0 (worker_init data)).data.total_rtt = data.total_rtt := by
      intro k
      induction k with
      | zero => intro _; rfl
      | succ n ih =>
        intro hk
        rw [worker_loop_succ, iter_body_rtt, Nat.zero_add, hall n (by omega)]
        simpa using ih (by omega)
    exact this _ (le_refl _)
  rw [count_iters_none ready env _ (fun i hi => by
    have := hall i hi
    simp [ready]; omega)] at hm
  rw [count_iters_none received env _ (fun i hi => by
    have := hall i hi
    simp [received, ready]; omega)] at hr
  have hle := count_iters_le sent env num_requests.toNat
  have hl : sub_int (count_iters sent env num_requests.toNat : Int) ((0 : Nat) : Int) =
      (count_iters sent env num_requests.toNat : Int) := by
    unfold sub_int wrap_int
    omega
  refine ⟨?_, ?_, ?_, ?_, ?_, ?_⟩
  · simpa [client_thread_func] using hm
  · simpa [client_thread_func] using hrtt
  · simpa [client_thread_func] using hr
  · simpa [client_thread_func] using ht
  · simp only [client_thread_func, ht, hr, hl]
  · simp only [client_thread_func, ht, hr, hl]
    by_cases hc : 0 < count_iters sent env num_requests.toNat
    · simp [hc]
    · simp [hc]

theorem timeout_run_counts_nothing_witness :
    (client_thread_func 5 env_timeout data0).data.total_messages = 0 ∧
    (client_thread_func 5 env_timeout data0).data.total_rtt = data0.total_rtt ∧
    (client_thread_func 5 env_timeout data0).rx_cnt = 0 ∧
    (client_thread_func 5 env_timeout data0).tx_cnt =
      (count_iters sent env_timeout (5 : Int).toNat : Int) ∧
    (client_thread_func 5 env_timeout data0).lost_pkt_cnt =
      (client_thread_func 5 env_timeout data0).tx_cnt ∧
    (client_thread_func 5 env_timeout data0).diagnostic =
      (if 0 < count_iters sent env_timeout (5 : Int).toNat
        then some (count_iters sent env_timeout (5 : Int).toNat : Int) else none) :=
  timeout_run_counts_nothing 5 env_timeout data0 (by decide) rfl (fun _ _ => rfl)

/-- C5: in a pass of the worker loop in which `epoll_wait` returns `≤ 0`, from any
worker state, no `recv` is issued (the calls are `gettimeofday`, `send`,
`epoll_wait` only, and the outcome does not depend on what `recv` or the second
clock reading would have returned); the record `data` (with `total_rtt` and
`total_messages`) and `rx_cnt` are unchanged; `tx_cnt` is incremented (C `int`
addition) exactly when `send` returned more than `-1`; and the loop goes on with
the next index. -/
theorem timeout_iteration_frame (o : IterOutcome) (st : WorkerState)
    (h : o.epoll_ret ≤ 0) :
    (iter_body o st).data.total_rtt = st.data.total_rtt ∧
    (iter_body o st).data.total_messages = st.data.total_messages ∧
    (iter_body o st).data = st.data ∧
    (iter_body o st).rx_cnt = st.rx_cnt ∧
    (iter_body o st).tx_cnt = (if o.send_ret > -1 then add_int st.tx_cnt 1 else st.tx_cnt) ∧
    (in_int (st.tx_cnt + 1) → o.send_ret > -1 → (iter_body o st).tx_cnt = st.tx_cnt + 1) ∧
    (iter_body o st).calls =
      st.calls ++ [Syscall.gettimeofday, Syscall.send, Syscall.epoll_wait] ∧
    Syscall.recv ∉ [Syscall.gettimeofday, Syscall.send, Syscall.epoll_wait] ∧
    (∀ (r : Int) (t : timeval),
      iter_body { o with recv_ret := r, tv_end := t } st = iter_body o st) ∧
    (∀ (env : Nat → IterOutcome) (remaining i : Nat), env i = o →
      worker_loop env (remaining + 1) i st =
        worker_loop env remaining (i + 1) (iter_body o st)) := by
  have hb : iter_body o st =
      { st with
        tx_cnt := if o.send_ret > -1 then add_int st.tx_cnt 1 else st.tx_cnt
        calls := st.calls ++ [Syscall.gettimeofday, Syscall.send, Syscall.epoll_wait] } := by
    unfold iter_body
    simp [h]
  refine ⟨by rw [hb], by rw [hb], by rw [hb], by rw [hb], by rw [hb], ?_, by rw [hb],
    by decide, ?_, ?_⟩
  · intro hr hs
    rw [hb]
    simp only [hs, if_true, add_int]
    exact wrap_int_of_in_int _ hr
  · intro r t
    unfold iter_body
    simp [h]
  · intro env remaining i he
    rw [worker_loop, he]

theorem timeout_iteration_frame_witness :
    (env_timeout 0).epoll_ret ≤ 0 ∧
    (iter_body (env_timeout 0) (worker_init data0)).data = data0 ∧
    (iter_body (env_timeout 0) (worker_init data0)).rx_cnt = 0 ∧
    (iter_body (env_timeout 0) (worker_init data0)).tx_cnt = 1 :=
  ⟨by decide,
    (timeout_iteration_frame (env_timeout 0) (worker_init data0) (by decide)).2.2.1,
    (timeout_iteration_frame (env_timeout 0) (worker_init data0) (by decide)).2.2.2.1,
    (timeout_iteration_frame (env_timeout 0) (worker_init data0) (by decide)).2.2.2.2.1⟩

/-- C10: at the end of the worker loop (worker started with `total_messages = 0`,
`num_requests` a C `int`), whatever `send`, `epoll_wait` and `recv` return,
`rx_cnt ≤ total_messages`, where `total_messages` is the number of passes in which
`epoll_wait` returned a positive count and `rx_cnt` the number of those in which
`recv` also returned more than `-1`. The inequality is strict in the run of three
passes in which readiness fires and `recv` returns `-1`: `rx_cnt = 0`,
`total_messages = 3`, and `run_client` reports 3 messages received. -/
theorem rx_cnt_le_total_messages (num_requests : Int) (env : Nat → IterOutcome)
    (data : client_thread_data_t) (hint : in_int num_requests)
    (h0 : data.total_messages = 0) :
    (client_thread_func num_requests env data).rx_cnt ≤
      (client_thread_func num_requests env data).data.total_messages ∧
    (client_thread_func num_requests env data).data.total_messages =
      (count_iters ready env num_requests.toNat : Int) ∧
    (client_thread_func num_requests env data).rx_cnt =
      (count_iters received env num_requests.toNat : Int) ∧
    ((client_thread_func 3 env_recv_fails data0).rx_cnt = 0 ∧
      (client_thread_func 3 env_recv_fails data0).data.total_messages = 3 ∧
      (run_client 1 3 setup0 (fun _ => env_recv_fails)).map
        (fun out => out.final.total_messages) = some 3) := by
  have hn : (num_requests.toNat : Int) < 2147483648 := by
    unfold in_int at hint
    omega
  have hm := loop_msgs env (worker_init data) num_requests.toNat hn h0
  have hr := loop_rx env (worker_init data) num_requests.toNat hn rfl
  have hle := count_received_le_ready env num_requests.toNat
  refine ⟨?_, hm, hr, by decide⟩
  simp only [client_thread_func, hm, hr]
  exact_mod_cast hle

theorem rx_cnt_le_total_messages_witness :
    in_int 3 ∧ data0.total_messages = 0 ∧
    (client_thread_func 3 env_recv_fails data0).rx_cnt ≤
      (client_thread_func 3 env_recv_fails data0).data.total_messages :=
  ⟨by decide, rfl, (rx_cnt_le_total_messages 3 env_recv_fails data0 (by decide) rfl).1⟩

/-! ## The worker: accumulated round-trip time -/

/-- C9, as stated, fails: one successful pass with clock readings `(0, 0)` and
`(9223372036854, 775808)`. Both readings have `0 ≤ tv_usec < 1000000` and the end
is not earlier than the start, yet the microsecond difference `2^63` is not
representable as `long long`: the per-pass expression and the final `total_rtt`
are `-2^63`, different from the sum and negative. -/
theorem total_rtt_overflow :
    (0 ≤ (env_far 0).tv_start.tv_usec ∧ (env_far 0).tv_start.tv_usec < 1000000) ∧
    (0 ≤ (env_far 0).tv_end.tv_usec ∧ (env_far 0).tv_end.tv_usec < 1000000) ∧
    micros (env_far 0).tv_start ≤ micros (env_far 0).tv_end ∧
    rtt_sum env_far 1 = 9223372036854775808 ∧
    rtt_expr (env_far 0).tv_start (env_far 0).tv_end = -9223372036854775808 ∧
    (client_thread_func 1 env_far data0).data.total_rtt = -9223372036854775808 ∧
    (client_thread_func 1 env_far data0).data.total_rtt ≠ rtt_sum env_far 1 ∧
    (client_thread_func 1 env_far data0).data.total_rtt < 0 := by
  decide

/-- C9 (amended): for a worker started with `total_rtt = 0` and any clock
readings, when the sum over exactly the passes in which `epoll_wait` returned a
positive count (whatever `recv` returned) of
`(end.tv_sec*1000000 + end.tv_usec) - (start.tv_sec*1000000 + start.tv_usec)` is
representable as `long long`, the final `total_rtt` equals that sum; the per-pass
expression of the code equals the microsecond difference of its pass, also when
`end.tv_usec < start.tv_usec`, whenever that difference is representable as
`long long`; and `total_rtt ≥ 0` when moreover no end reading is earlier than its
start reading. -/
theorem total_rtt_eq_rtt_sum_of_representable (num_requests : Int)
    (env : Nat → IterOutcome) (data : client_thread_data_t) (h0 : data.total_rtt = 0)
    (hfit : in_ll (rtt_sum env num_requests.toNat)) :
    (client_thread_func num_requests env data).data.total_rtt =
      rtt_sum env num_requests.toNat ∧
    (∀ i : Nat, i < num_requests.toNat → ready (env i) = true →
      in_ll (micros (env i).tv_end - micros (env i).tv_start) →
      rtt_expr (env i).tv_start (env i).tv_end =
        ((env i).tv_end.tv_sec * 1000000 + (env i).tv_end.tv_usec) -
          ((env i).tv_start.tv_sec * 1000000 + (env i).tv_start.tv_usec)) ∧
    ((∀ i : Nat, i < num_requests.toNat → ready (env i) = true →
        micros (env i).tv_start ≤ micros (env i).tv_end) →
      0 ≤ (client_thread_func num_requests env data).data.total_rtt) := by
  have hfin : (client_thread_func num_requests env data).data.total_rtt =
      rtt_sum env num_requests.toNat := by
    have hz : (worker_init data).data.total_rtt = 0 := h0
    have h := loop_rtt_wrap env (worker_init data) num_requests.toNat (by
      rw [hz]
      decide)
    rw [hz, zero_add, wrap_ll_of_in_ll _ hfit] at h
    simpa [client_thread_func] using h
  refine ⟨hfin, ?_, ?_⟩
  · intro i _ _ hd
    rw [rtt_expr_wrap, wrap_ll_of_in_ll _ hd]
    rfl
  · intro hmono
    rw [hfin]
    exact rtt_sum_nonneg env _ hmono

theorem total_rtt_eq_rtt_sum_of_representable_witness :
    data0.total_rtt = 0 ∧ in_ll (rtt_sum env_ok (5 : Int).toNat) ∧
    (client_thread_func 5 env_ok data0).data.total_rtt = rtt_sum env_ok (5 : Int).toNat ∧
    rtt_sum env_ok (5 : Int).toNat = 1250 ∧
    rtt_expr (env_ok 0).tv_start (env_ok 0).tv_end = 250 :=
  ⟨rfl, by decide,
    (total_rtt_eq_rtt_sum_of_representable 5 env_ok data0 rfl (by decide)).1,
    by decide, by decide⟩

/-! ## The orchestrator: aggregation and report -/

theorem aggregate_foldl (l : List client_thread_data_t) :
    ∀ a b : Int,
      l.foldl aggregate_step { total_rtt := wrap_ll a, total_messages := wrap_ll b } =
        { total_rtt := wrap_ll (a + (l.map (fun d => d.total_rtt)).sum)
          total_messages := wrap_ll (b + (l.map (fun d => d.total_messages)).sum) } := by
  induction l with
  | nil => intro a b; simp
  | cons d t ih =>
    intro a b
    simp only [List.foldl_cons, aggregate_step, add_ll, wrap_ll_add_left, List.map_cons,
      List.sum_cons]
    rw [ih (a + d.total_rtt) (b + d.total_messages), add_assoc, add_assoc]

theorem aggregate_eq_sum (l : List client_thread_data_t) :
    aggregate l =
      { total_rtt := wrap_ll ((l.map (fun d => d.total_rtt)).sum)
        total_messages := wrap_ll ((l.map (fun d => d.total_messages)).sum) } := by
  have h := aggregate_foldl l 0 0
  have hz : wrap_ll 0 = 0 := by decide
  rw [hz, zero_add, zero_add] at h
  exact h

/-- C6 (the code diverges): with `num_requests = 0`, and likewise when every
readiness wait times out, the summed `total_messages` is `0` and the report step
of `run_client` evaluates `total_rtt / total_messages` with a zero divisor: the
division has no defined result and no sentinel value is produced. -/
theorem report_average_rtt_undefined :
    run_client 1 0 setup0 (fun _ => env_ok) =
      some { diagnostics := [none]
             final := { total_messages := 0
                        total_requests_expected := 0
                        average_rtt := none } } ∧
    run_client 1 5 setup0 (fun _ => env_timeout) =
      some { diagnostics := [some 5]
             final := { total_messages := 0
                        total_requests_expected := 5
                        average_rtt := none } } := by
  decide

/-- C7: for per-worker records `l₁` and any permutation `l₂` of them, the join
loop of `run_client` yields the same `total_messages` and the same `total_rtt`,
hence the same report; and the reported expected total is
`num_client_threads * num_requests` (C `int` product) whatever the list is. -/
theorem aggregate_perm_invariant (num_client_threads num_requests : Int)
    (l₁ l₂ : List client_thread_data_t) (h : l₁.Perm l₂) :
    (aggregate l₁).total_messages = (aggregate l₂).total_messages ∧
    (aggregate l₁).total_rtt = (aggregate l₂).total_rtt ∧
    report num_client_threads num_requests l₁ = report num_client_threads num_requests l₂ ∧
    (report num_client_threads num_requests l₁).total_requests_expected =
      mul_int num_client_threads num_requests ∧
    (report num_client_threads num_requests l₂).total_requests_expected =
      mul_int num_client_threads num_requests := by
  have hagg : aggregate l₁ = aggregate l₂ := by
    rw [aggregate_eq_sum, aggregate_eq_sum,
      (h.map (fun d => d.total_rtt)).sum_eq, (h.map (fun d => d.total_messages)).sum_eq]
  refine ⟨by rw [hagg], by rw [hagg], ?_, rfl, rfl⟩
  unfold report
  rw [hagg]

theorem aggregate_perm_invariant_witness :
    aggregate [(client_thread_func 3 env_ok data0).data,
               (client_thread_func 2 env_recv_fails data0).data] =
      { total_rtt := 810, total_messages := 5 } ∧
    (aggregate [(client_thread_func 3 env_ok data0).data,
                (client_thread_func 2 env_recv_fails data0).data]).total_messages =
      (aggregate [(client_thread_func 2 env_recv_fails data0).data,
                  (client_thread_func 3 env_ok data0).data]).total_messages :=
  ⟨by decide,
    (aggregate_perm_invariant 2 3 _ _ (List.Perm.swap _ _ [])).1⟩

/-- C8, as stated, fails: with 4 threads of 1000000000 requests each (both C
`int` values) the reported expected total is `-294967296`, not the product
`4000000000`; with 65536 threads of 65536 requests it is `0`. -/
theorem total_requests_expected_overflow :
    (report 4 1000000000 (List.replicate 4 data0)).total_requests_expected = -294967296 ∧
    (report 4 1000000000 (List.replicate 4 data0)).total_requests_expected ≠
      4 * 1000000000 ∧
    (report 65536 65536 []).total_requests_expected = 0 := by
  decide

/-- C8 (amended): whenever the product `num_client_threads * num_requests` is
representable as a C `int`, the expected total reported by `run_client` is that
exact product. -/
theorem total_requests_expected_exact (num_client_threads num_requests : Int)
    (thread_data : List client_thread_data_t)
    (h : in_int (num_client_threads * num_requests)) :
    (report num_client_threads num_requests thread_data).total_requests_expected =
      num_client_threads * num_requests := by
  simp only [report, mul_int]
  exact wrap_int_of_in_int _ h

theorem total_requests_expected_exact_witness :
    in_int (4 * 1000000) ∧
    (report 4 1000000 (List.replicate 4 data0)).total_requests_expected = 4 * 1000000 :=
  ⟨by decide, total_requests_expected_exact 4 1000000 (List.replicate 4 data0) (by decide)⟩

/-! ## The echo responder -/

/-- C1, as stated, fails: a zero-length datagram is not echoed, the pass closes
the socket instead; and a 17-byte datagram is answered with its first 16 bytes,
not with the 17 received. -/
theorem run_server_iter_not_verbatim :
    run_server_iter 5 (some { payload := [], src := peer0 }) = ServerAction.close 5 ∧
    run_server_iter 5 (some { payload := [], src := peer0 }) ≠
      ServerAction.sendto 5 [] (some peer0) ∧
    run_server_iter 5 (some { payload := List.replicate 17 65, src := peer0 }) =
      ServerAction.sendto 5 (List.replicate 16 65) (some peer0) ∧
    run_server_iter 5 (some { payload := List.replicate 17 65, src := peer0 }) ≠
      ServerAction.sendto 5 (List.replicate 17 65) (some peer0) := by
  decide

/-- C1 (amended): for every inbound datagram whose payload has between 1 and
`MESSAGE_SIZE` (16) bytes, one pass of the loop of `run_server` sends to the
sender's address exactly the received payload; a longer payload is answered with
its first 16 bytes; a zero-length payload is not answered and the socket is
closed. -/
theorem run_server_iter_echo (fd : Int) (d : Datagram) :
    (1 ≤ d.payload.length → d.payload.length ≤ MESSAGE_SIZE →
      run_server_iter fd (some d) = ServerAction.sendto fd d.payload (some d.src)) ∧
    (MESSAGE_SIZE < d.payload.length →
      run_server_iter fd (some d) =
        ServerAction.sendto fd (d.payload.take MESSAGE_SIZE) (some d.src)) ∧
    (d.payload.length = 0 → run_server_iter fd (some d) = ServerAction.close fd) := by
  refine ⟨?_, ?_, ?_⟩
  · intro h1 h2
    have hmin : min d.payload.length MESSAGE_SIZE = d.payload.length := Nat.min_eq_left h2
    have hpos : ((d.payload.length : Nat) : Int) > 0 := by omega
    simp only [run_server_iter, recvfrom, hmin, hpos, if_true, Int.toNat_ofNat]
    rw [List.take_take, hmin, List.take_of_length_le (le_refl _)]
  · intro h
    have hmin : min d.payload.length MESSAGE_SIZE = MESSAGE_SIZE := Nat.min_eq_right (by omega)
    have hpos : ((MESSAGE_SIZE : Nat) : Int) > 0 := by decide
    simp only [run_server_iter, recvfrom, hmin, hpos, if_true, Int.toNat_ofNat]
    rw [List.take_take, Nat.min_self]
  · intro h
    simp [run_server_iter, recvfrom, h]

theorem run_server_iter_echo_witness :
    run_server_iter 5 (some { payload := [65, 66, 67], src := peer0 }) =
      ServerAction.sendto 5 [65, 66, 67] (some peer0) :=
  (run_server_iter_echo 5 { payload := [65, 66, 67], src := peer0 }).1
    (by decide) (by decide)

end PA2
